import Mathlib

/-!
Shallow embedding of the multimodal-AI dashboard backend (`src/api/index.py`).

The program is a single-file Flask application.  Its externally-provided
capabilities (the OpenAI-compatible chat-completions endpoint and the
Cloudinary uploader) are modelled as oracle functions inside an `Env`
record; a Python exception raised by an external call is an
`Except.error msg` where `msg` plays the role of `str(e)`.  Every call
the handler makes to an external service is recorded in a trace
(`List Call`) so that claims of the form "the Inference Gateway is never
invoked" are directly statable.

The SQLAlchemy `Prediction` table is modelled as a `Store`: a list of
records in insertion order together with the next auto-assigned primary
key.  `ORDER BY id DESC` is embedded as an insertion sort by descending
identifier.
-/

/-- One row of the `Prediction` table (`class Prediction(db.Model)`).
`timestamp` abstracts the UTC creation time as a number. -/
structure Record where
  id : Nat
  result : String
  image_path : String
  timestamp : Nat
deriving DecidableEq, Repr

/-- The database: rows in insertion order plus the next primary key the
store will assign (SQLAlchemy assigns monotonically increasing ids). -/
structure Store where
  records : List Record
  nextId : Nat
deriving DecidableEq, Repr

/-- A freshly created database. -/
def emptyStore : Store := ⟨[], 1⟩

/-- `db.session.add(Prediction(result=..., image_path=...)); db.session.commit()`:
append one fully formed row, with the store assigning the id. -/
def addRecord (s : Store) (result image_path : String) (now : Nat) : Store :=
  ⟨s.records ++ [⟨s.nextId, result, image_path, now⟩], s.nextId + 1⟩

/-- An uploaded file part (`request.files[...]`): a filename and raw bytes. -/
structure File where
  filename : String
  content : List Nat
deriving DecidableEq, Repr

/-- The message content of one chat-completions request: either a plain
text prompt, or a text instruction paired with an `image_url` entry. -/
inductive ChatContent where
  | textOnly (text : String)
  | textWithImageUrl (text : String) (url : String)
deriving DecidableEq, Repr

/-- One `client.chat.completions.create(...)` request as the program
builds it: model name, message content, `max_tokens`, `temperature`. -/
structure ChatReq where
  model : String
  content : ChatContent
  max_tokens : Nat
  temperature : ℚ
deriving DecidableEq, Repr

/-- One `cloudinary.uploader.upload(...)` request as the program builds
it, with the fixed keyword arguments of the source. -/
structure UploadReq where
  file : File
  resource_type : String
  folder : String
  use_filename : Bool
  unique_filename : Bool
deriving DecidableEq, Repr

/-- One outbound call to an external service. -/
inductive Call where
  | chat (req : ChatReq)
  | upload (req : UploadReq)
deriving DecidableEq, Repr

/-- The external world: the chat-completions provider, the Cloudinary
uploader, and the current UTC time.  `Except.error m` models the call
raising a Python exception with `str(e) = m`; `Except.ok` carries the
response content (for chat) or the `secure_url` (for upload). -/
structure Env where
  chat : ChatReq → Except String String
  upload : UploadReq → Except String String
  now : Nat

/-- Python `str.strip()`: drop leading and trailing whitespace.  Defined
by structural recursion on the character list so concrete inputs evaluate
inside proofs. -/
def pyStrip (s : String) : String :=
  String.mk (((s.toList.dropWhile Char.isWhitespace).reverse.dropWhile Char.isWhitespace).reverse)

/-- The model name hardcoded in all three gateway functions. -/
def kimiModel : String := "moonshotai/Kimi-K2.5"

/-- `max_tokens=800` in all three gateway functions. -/
def defaultMaxTokens : Nat := 800

/-- `temperature=0.85` in all three gateway functions. -/
def defaultTemperature : ℚ := (0.85 : ℚ)

/-- The chat request built by `text_model`. -/
def mkTextChatReq (prompt_text : String) : ChatReq :=
  ⟨kimiModel, ChatContent.textOnly prompt_text, defaultMaxTokens, defaultTemperature⟩

/-- The chat request built by `image_url_model`: a text instruction plus
an `image_url` message part. -/
def mkImageUrlChatReq (image_url prompt_text : String) : ChatReq :=
  ⟨kimiModel, ChatContent.textWithImageUrl prompt_text image_url,
    defaultMaxTokens, defaultTemperature⟩

/-- The base64 alphabet used by the standard encoding. -/
def b64Alphabet : String :=
  "ABCDEFGHIJKLMNOPQRSTUVWXYZabcdefghijklmnopqrstuvwxyz0123456789+/"

/-- The base64 digit for a 6-bit value. -/
def b64Char (n : Nat) : Char := b64Alphabet.toList.getD n 'A'

/-- Standard base64 of a byte list (`base64.b64encode(file.read()).decode('utf-8')`). -/
def base64Encode : List Nat → String
  | a :: b :: c :: rest =>
      let n := (a % 256) * 65536 + (b % 256) * 256 + (c % 256)
      String.mk [b64Char (n / 262144), b64Char (n / 4096 % 64),
        b64Char (n / 64 % 64), b64Char (n % 64)] ++ base64Encode rest
  | [a, b] =>
      let n := (a % 256) * 65536 + (b % 256) * 256
      String.mk [b64Char (n / 262144), b64Char (n / 4096 % 64),
        b64Char (n / 64 % 64)] ++ "="
  | [a] =>
      let n := (a % 256) * 65536
      String.mk [b64Char (n / 262144), b64Char (n / 4096 % 64)] ++ "=="
  | [] => ""

/-- The chat request built by `image_upload_model`: the image bytes are
inlined as a `data:image/jpeg;base64,` URL. -/
def mkUploadChatReq (file : File) (prompt_text : String) : ChatReq :=
  ⟨kimiModel,
    ChatContent.textWithImageUrl prompt_text
      ("data:image/jpeg;base64," ++ base64Encode file.content),
    defaultMaxTokens, defaultTemperature⟩

/-- The upload request built by the `mode=upload` branch of `analyze`:
`resource_type="image"`, `folder="ai-vision-uploads"`, `use_filename=True`,
`unique_filename=False`. -/
def mkUploadReq (file : File) : UploadReq :=
  ⟨file, "image", "ai-vision-uploads", true, false⟩

/-- `def text_model(prompt_text)`: one provider call; on success the
content is stripped, on exception the handler returns
`f"Text model error: {str(e)}"`.  The second component is the trace of
external calls made. -/
def text_model (env : Env) (prompt_text : String) : String × List Call :=
  match env.chat (mkTextChatReq prompt_text) with
  | Except.ok content => (pyStrip content, [Call.chat (mkTextChatReq prompt_text)])
  | Except.error e => ("Text model error: " ++ e, [Call.chat (mkTextChatReq prompt_text)])

/-- `def image_url_model(image_url, prompt_text)`: like `text_model` but
with an image-URL message part; the exception branch returns
`f"Image URL model error: {str(e)}"`. -/
def image_url_model (env : Env) (image_url prompt_text : String) : String × List Call :=
  match env.chat (mkImageUrlChatReq image_url prompt_text) with
  | Except.ok content => (pyStrip content, [Call.chat (mkImageUrlChatReq image_url prompt_text)])
  | Except.error e =>
      ("Image URL model error: " ++ e, [Call.chat (mkImageUrlChatReq image_url prompt_text)])

/-- `def image_upload_model(file, prompt_text)`: the file bytes are
base64-inlined; the exception branch returns
`f"Image upload model error: {str(e)}"`. -/
def image_upload_model (env : Env) (file : File) (prompt_text : String) : String × List Call :=
  match env.chat (mkUploadChatReq file prompt_text) with
  | Except.ok content => (pyStrip content, [Call.chat (mkUploadChatReq file prompt_text)])
  | Except.error e =>
      ("Image upload model error: " ++ e, [Call.chat (mkUploadChatReq file prompt_text)])

/-- An incoming `POST /analyze` request: the form fields (`request.form`)
and the file parts (`request.files`), both as association lists. -/
structure AnalyzeRequest where
  form : List (String × String)
  files : List (String × File)

/-- `request.form.get(key)`. -/
def formGet (form : List (String × String)) (key : String) : Option String :=
  form.lookup key

/-- `request.files[key]` guarded by `key in request.files`. -/
def filesGet (files : List (String × File)) (key : String) : Option File :=
  files.lookup key

/-- The `mode` field as the handler tests it: `if not mode` treats both a
missing field and an empty string as absent. -/
def modeVal (req : AnalyzeRequest) : Option String :=
  match formGet req.form "mode" with
  | none => none
  | some s => if s = "" then none else some s

/-- The `describe` instruction template. -/
def describePrompt : String :=
  "Describe this image in full detail with emojis to highlight features and **bold** key elements. Be engaging and comprehensive."

/-- The `caption` instruction template. -/
def captionPrompt : String :=
  "Write a detailed caption for this image, using emojis for emphasis and **bold** important words. Make it vivid and full."

/-- The `objects` instruction template. -/
def objectsPrompt : String :=
  "List all objects in this image in detail, with emojis next to each and **bold** the main ones. Provide full descriptions."

/-- The `explain` instruction template. -/
def explainPrompt : String :=
  "Explain the scene in this image thoroughly, using emojis to illustrate points and **bold** key concepts. Be detailed and engaging."

/-- The `prompts` dictionary of the handler. -/
def prompts : List (String × String) :=
  [("describe", describePrompt), ("caption", captionPrompt),
   ("objects", objectsPrompt), ("explain", explainPrompt)]

/-- `prompts.get(prompt_type, prompts["describe"])`. -/
def resolveInstruction (prompt_type : String) : String :=
  (prompts.lookup prompt_type).getD describePrompt

/-- The body of the `try:` block of `analyze`, for a present mode value:
computes `(result, image_path)` and the trace of external calls. -/
def routeBody (env : Env) (req : AnalyzeRequest) (mode : String) :
    (String × String) × List Call :=
  if mode = "text" then
    let prompt_text := pyStrip ((formGet req.form "prompt").getD "")
    if prompt_text ≠ "" then
      let enhanced_prompt :=
        prompt_text ++ " Respond in full detail with emojis and **bold** text for emphasis."
      (((text_model env enhanced_prompt).1, ""), (text_model env enhanced_prompt).2)
    else
      (("Please enter a prompt.", ""), [])
  else if mode = "url" then
    let image_url := pyStrip ((formGet req.form "image_url").getD "")
    let prompt_type := (formGet req.form "prompt_type").getD "describe"
    let instruction := resolveInstruction prompt_type
    if image_url ≠ "" then
      (((image_url_model env image_url instruction).1, ""),
        (image_url_model env image_url instruction).2)
    else
      (("Please provide a valid image URL.", ""), [])
  else if mode = "upload" then
    match filesGet req.files "image" with
    | none => (("No image file selected.", ""), [])
    | some file =>
      if file.filename = "" then
        (("No image file selected.", ""), [])
      else
        let prompt_type := (formGet req.form "prompt_type").getD "describe"
        let instruction := resolveInstruction prompt_type
        match env.upload (mkUploadReq file) with
        | Except.ok image_url =>
            (((image_url_model env image_url instruction).1, image_url),
              Call.upload (mkUploadReq file) :: (image_url_model env image_url instruction).2)
        | Except.error e =>
            (("Cloudinary upload failed: " ++ e, ""), [Call.upload (mkUploadReq file)])
  else
    (("Invalid mode.", ""), [])

/-- The JSON body `{"result": ...}` together with the HTTP status. -/
structure AnalyzeResponse where
  result : String
  status : Nat
deriving DecidableEq, Repr

/-- The `except Exception` clause wrapping the routing decision
(lines 191-192): a successful body keeps its `(result, image_path)`;
an uncaught exception `e` yields
`result = f"Error during processing: {str(e)}"` with `image_path`
still empty. -/
def handleOutcome (outcome : Except String (String × String)) : String × String :=
  match outcome with
  | Except.ok rp => rp
  | Except.error e => ("Error during processing: " ++ e, "")

/-- Lines 194-199 of the handler: persist exactly one record with the
computed `result`/`image_path` and answer `{"result": result}` (HTTP 200). -/
def analyzeFinish (s : Store) (now : Nat) (rp : String × String) :
    AnalyzeResponse × Store :=
  (⟨rp.1, 200⟩, addRecord s rp.1 rp.2 now)

/-- `POST /analyze`: returns the response, the updated store and the
trace of external calls.  A missing (or empty) `mode` answers 400 before
anything else happens. -/
def analyze (env : Env) (req : AnalyzeRequest) (s : Store) :
    AnalyzeResponse × Store × List Call :=
  match modeVal req with
  | none => (⟨"Error: mode field is missing", 400⟩, s, [])
  | some mode =>
      let out := analyzeFinish s env.now (handleOutcome (Except.ok (routeBody env req mode).1))
      (out.1, out.2, (routeBody env req mode).2)

/-- One element of the `GET /history` JSON array. -/
structure HistoryEntry where
  id : Nat
  result : String
  timestamp : Nat
  image : String
deriving DecidableEq, Repr

/-- The dictionary built for one record:
`{"id": r.id, "result": r.result, "timestamp": ..., "image": r.image_path if r.image_path else ""}`. -/
def recordEntry (r : Record) : HistoryEntry :=
  ⟨r.id, r.result, r.timestamp, if r.image_path = "" then "" else r.image_path⟩

/-- Insert a record into a list kept in descending-id order. -/
def insertDesc (r : Record) : List Record → List Record
  | [] => [r]
  | x :: xs => if x.id ≤ r.id then r :: x :: xs else x :: insertDesc r xs

/-- `Prediction.query.order_by(Prediction.id.desc()).all()`: the rows
sorted by descending identifier. -/
def sortByIdDesc : List Record → List Record
  | [] => []
  | x :: xs => insertDesc x (sortByIdDesc xs)

/-- `GET /history`: every record, newest (largest id) first. -/
def history (s : Store) : List HistoryEntry :=
  (sortByIdDesc s.records).map recordEntry

/-- The JSON body `{"status": ...}` of the delete route with its HTTP status. -/
structure DeleteResponse where
  status_msg : String
  code : Nat
deriving DecidableEq, Repr

/-- `DELETE /delete/<id>`: `Prediction.query.get(id)`; if the row exists,
delete it and answer `{"status": "deleted"}`, else answer
`{"status": "not found"}` with 404 and leave the store unchanged. -/
def delete_record (s : Store) (id : Nat) : DeleteResponse × Store :=
  match s.records.find? (fun r => r.id == id) with
  | some _ => (⟨"deleted", 200⟩, ⟨s.records.filter (fun r => r.id != id), s.nextId⟩)
  | none => (⟨"not found", 404⟩, s)

/-- A sequence of `/analyze` requests run against a store. -/
def runRequests (s : Store) : List (Env × AnalyzeRequest) → Store
  | [] => s
  | p :: rest => runRequests (analyze p.1 p.2 s).2.1 rest

/-! ### Unfolding lemmas for the handler -/

theorem analyze_mode_some (env : Env) (req : AnalyzeRequest) (s : Store) (m : String)
    (hm : modeVal req = some m) :
    analyze env req s =
      (⟨(routeBody env req m).1.1, 200⟩,
        addRecord s (routeBody env req m).1.1 (routeBody env req m).1.2 env.now,
        (routeBody env req m).2) := by
  simp [analyze, hm, analyzeFinish, handleOutcome]

theorem image_url_model_calls (env : Env) (u p : String) :
    (image_url_model env u p).2 = [Call.chat (mkImageUrlChatReq u p)] := by
  unfold image_url_model
  cases env.chat (mkImageUrlChatReq u p) <;> rfl

theorem text_model_calls (env : Env) (p : String) :
    (text_model env p).2 = [Call.chat (mkTextChatReq p)] := by
  unfold text_model
  cases env.chat (mkTextChatReq p) <;> rfl

/-! ### Claims about the dispatcher -/

/-- Claim C1: for every `POST /analyze` request whose `mode` field is
present (non-empty), the handler persists exactly one record carrying the
computed result and image reference (the latter defaulting to empty) and
responds `200` with body `{"result": <string>}`; and the top-level
exception handler converts any uncaught exception of the routing decision
into a result of the form `"Error during processing: <message>"`. -/
theorem claim_c1_one_record_and_error_wrapping (env : Env) (req : AnalyzeRequest)
    (s : Store) (m : String) (hm : modeVal req = some m) :
    (analyze env req s).2.1.records
        = s.records ++ [⟨s.nextId, (routeBody env req m).1.1, (routeBody env req m).1.2, env.now⟩]
      ∧ (analyze env req s).2.1.nextId = s.nextId + 1
      ∧ (analyze env req s).1 = ⟨(routeBody env req m).1.1, 200⟩
      ∧ ∀ e, handleOutcome (Except.error e) = ("Error during processing: " ++ e, "") := by
  rw [analyze_mode_some env req s m hm]
  exact ⟨rfl, rfl, rfl, fun e => rfl⟩

/-- Claim C2: a request with `mode` absent (or empty, which `if not mode`
also treats as absent) gets status 400 with a body naming the missing
field, writes no record, and makes no gateway call. -/
theorem claim_c2_missing_mode (env : Env) (req : AnalyzeRequest) (s : Store)
    (hm : modeVal req = none) :
    analyze env req s = (⟨"Error: mode field is missing", 400⟩, s, []) := by
  simp [analyze, hm]

/-- Claim C3: `mode=upload` with a file present whose upload fails: the
result is the fixed upload-failure message followed by the provider's
error text, the only external call is the upload (so the Inference
Gateway is never invoked), and the persisted record's image reference is
empty. -/
theorem claim_c3_upload_failure (env : Env) (req : AnalyzeRequest) (s : Store)
    (f : File) (e : String)
    (hm : modeVal req = some "upload")
    (hf : filesGet req.files "image" = some f)
    (hn : f.filename ≠ "")
    (hup : env.upload (mkUploadReq f) = Except.error e) :
    (analyze env req s).1.result = "Cloudinary upload failed: " ++ e
      ∧ (analyze env req s).2.2 = [Call.upload (mkUploadReq f)]
      ∧ (∀ c ∈ (analyze env req s).2.2, ∀ creq, c ≠ Call.chat creq)
      ∧ (analyze env req s).2.1.records
          = s.records ++ [⟨s.nextId, "Cloudinary upload failed: " ++ e, "", env.now⟩] := by
  have hr : routeBody env req "upload"
      = (("Cloudinary upload failed: " ++ e, ""), [Call.upload (mkUploadReq f)]) := by
    simp [routeBody, hf, hn, hup]
  rw [analyze_mode_some env req s "upload" hm, hr]
  refine ⟨rfl, rfl, ?_, rfl⟩
  intro c hc creq
  simp only [List.mem_singleton] at hc
  subst hc
  simp

/-- Claim C4: `mode=upload` success path: the persisted record's image
reference is exactly the URL the Storage Gateway returned, and that same
URL is the one handed to the Inference Gateway image-by-URL call. -/
theorem claim_c4_upload_success_url (env : Env) (req : AnalyzeRequest) (s : Store)
    (f : File) (url : String)
    (hm : modeVal req = some "upload")
    (hf : filesGet req.files "image" = some f)
    (hn : f.filename ≠ "")
    (hup : env.upload (mkUploadReq f) = Except.ok url) :
    (analyze env req s).2.1.records
        = s.records ++ [⟨s.nextId,
            (image_url_model env url
              (resolveInstruction ((formGet req.form "prompt_type").getD "describe"))).1,
            url, env.now⟩]
      ∧ (analyze env req s).2.2
          = [Call.upload (mkUploadReq f),
             Call.chat (mkImageUrlChatReq url
               (resolveInstruction ((formGet req.form "prompt_type").getD "describe")))] := by
  have hr : routeBody env req "upload"
      = (((image_url_model env url
            (resolveInstruction ((formGet req.form "prompt_type").getD "describe"))).1, url),
          Call.upload (mkUploadReq f)
            :: (image_url_model env url
                 (resolveInstruction ((formGet req.form "prompt_type").getD "describe"))).2) := by
    simp [routeBody, hf, hn, hup]
  rw [analyze_mode_some env req s "upload" hm, hr]
  exact ⟨rfl, by rw [image_url_model_calls]⟩

/-- Claim C5: `mode=url` with a non-empty `image_url`: `prompt_type=caption`
sends the caption template (which differs from the describe template),
while a missing or unrecognized `prompt_type` falls back to the describe
template. -/
theorem claim_c5_prompt_type_resolution (env : Env) (req : AnalyzeRequest) (s : Store)
    (u : String)
    (hm : modeVal req = some "url")
    (hu : formGet req.form "image_url" = some u)
    (hne : pyStrip u ≠ "") :
    captionPrompt ≠ describePrompt
      ∧ (formGet req.form "prompt_type" = some "caption" →
          (analyze env req s).2.2 = [Call.chat (mkImageUrlChatReq (pyStrip u) captionPrompt)])
      ∧ (formGet req.form "prompt_type" = none →
          (analyze env req s).2.2 = [Call.chat (mkImageUrlChatReq (pyStrip u) describePrompt)])
      ∧ (∀ pt, formGet req.form "prompt_type" = some pt →
          pt ≠ "describe" → pt ≠ "caption" → pt ≠ "objects" → pt ≠ "explain" →
          (analyze env req s).2.2 = [Call.chat (mkImageUrlChatReq (pyStrip u) describePrompt)]) := by
  rw [analyze_mode_some env req s "url" hm]
  refine ⟨by decide, ?_, ?_, ?_⟩
  · intro hpt
    have hcap : resolveInstruction "caption" = captionPrompt := rfl
    have hr : (routeBody env req "url").2
        = (image_url_model env (pyStrip u) captionPrompt).2 := by
      simp [routeBody, hu, hne, hpt, hcap]
    rw [hr, image_url_model_calls]
  · intro hpt
    have hr : (routeBody env req "url").2
        = (image_url_model env (pyStrip u) describePrompt).2 := by
      simp [routeBody, hu, hne, hpt]
      rfl
    rw [hr, image_url_model_calls]
  · intro pt hpt h1 h2 h3 h4
    have e1 : (pt == "describe") = false := beq_eq_false_iff_ne.mpr h1
    have e2 : (pt == "caption") = false := beq_eq_false_iff_ne.mpr h2
    have e3 : (pt == "objects") = false := beq_eq_false_iff_ne.mpr h3
    have e4 : (pt == "explain") = false := beq_eq_false_iff_ne.mpr h4
    have hr : (routeBody env req "url").2
        = (image_url_model env (pyStrip u) describePrompt).2 := by
      simp [routeBody, hu, hne, hpt, resolveInstruction, prompts, List.lookup, e1, e2, e3, e4]
    rw [hr, image_url_model_calls]

/-- Claim C6: `mode=text` with an empty (or missing, or all-whitespace)
`prompt` field: the result is the fixed missing-prompt message, no
external call is made, and exactly one record is added with an empty
image reference. -/
theorem claim_c6_empty_prompt (env : Env) (req : AnalyzeRequest) (s : Store)
    (hm : modeVal req = some "text")
    (hp : pyStrip ((formGet req.form "prompt").getD "") = "") :
    (analyze env req s).1 = ⟨"Please enter a prompt.", 200⟩
      ∧ (analyze env req s).2.2 = []
      ∧ (analyze env req s).2.1.records
          = s.records ++ [⟨s.nextId, "Please enter a prompt.", "", env.now⟩] := by
  have hr : routeBody env req "text" = (("Please enter a prompt.", ""), []) := by
    simp [routeBody, hp]
  rw [analyze_mode_some env req s "text" hm, hr]
  exact ⟨rfl, rfl, rfl⟩

/-- Claim C7: `mode=upload` with no file part (or an empty filename): the
result is the fixed no-file message and no external call is made, so
neither the Storage Gateway nor the Inference Gateway is invoked. -/
theorem claim_c7_no_file (env : Env) (req : AnalyzeRequest) (s : Store)
    (hm : modeVal req = some "upload")
    (hf : filesGet req.files "image" = none
        ∨ ∃ f, filesGet req.files "image" = some f ∧ f.filename = "") :
    (analyze env req s).1 = ⟨"No image file selected.", 200⟩
      ∧ (analyze env req s).2.2 = [] := by
  have hr : routeBody env req "upload" = (("No image file selected.", ""), []) := by
    rcases hf with hf | ⟨f, hf, hfn⟩
    · simp [routeBody, hf]
    · simp [routeBody, hf, hfn]
  rw [analyze_mode_some env req s "upload" hm, hr]
  exact ⟨rfl, rfl⟩

/-- Claim C8: each of the three Inference Gateway operations is a total
function into strings (it never raises past its boundary; failure and
success both return a string), and when the underlying provider call
fails the returned string is the operation kind followed by
`" error: "` and the provider's message. -/
theorem claim_c8_gateway_error_strings (env : Env) (p1 u p2 : String) (f : File)
    (p3 e1 e2 e3 : String)
    (h1 : env.chat (mkTextChatReq p1) = Except.error e1)
    (h2 : env.chat (mkImageUrlChatReq u p2) = Except.error e2)
    (h3 : env.chat (mkUploadChatReq f p3) = Except.error e3) :
    (text_model env p1).1 = "Text model error: " ++ e1
      ∧ (image_url_model env u p2).1 = "Image URL model error: " ++ e2
      ∧ (image_upload_model env f p3).1 = "Image upload model error: " ++ e3 := by
  refine ⟨?_, ?_, ?_⟩
  · unfold text_model; rw [h1]
  · unfold image_url_model; rw [h2]
  · unfold image_upload_model; rw [h3]

/-- Claim C10: `mode=upload` where the upload succeeds but the subsequent
inference call fails: the persisted record still carries the durable
upload URL as its image reference even though the result is the
error-prefixed inference string. -/
theorem claim_c10_url_kept_on_inference_failure (env : Env) (req : AnalyzeRequest)
    (s : Store) (f : File) (url e : String)
    (hm : modeVal req = some "upload")
    (hf : filesGet req.files "image" = some f)
    (hn : f.filename ≠ "")
    (hup : env.upload (mkUploadReq f) = Except.ok url)
    (hchat : env.chat (mkImageUrlChatReq url
        (resolveInstruction ((formGet req.form "prompt_type").getD "describe")))
      = Except.error e) :
    (analyze env req s).2.1.records
        = s.records ++ [⟨s.nextId, "Image URL model error: " ++ e, url, env.now⟩]
      ∧ (analyze env req s).1.result = "Image URL model error: " ++ e := by
  have hr : (routeBody env req "upload").1 = ("Image URL model error: " ++ e, url) := by
    simp [routeBody, hf, hn, hup, image_url_model, hchat]
  rw [analyze_mode_some env req s "upload" hm]
  rw [hr]
  exact ⟨rfl, rfl⟩

/-! ### Store invariants and the history/delete round-trip -/

/-- Well-formedness of a store: identifiers strictly increase along
insertion order and stay below the next identifier to be assigned. -/
def StoreInv (s : Store) : Prop :=
  s.records.Pairwise (fun a b => a.id < b.id) ∧ ∀ r ∈ s.records, r.id < s.nextId

theorem storeInv_empty : StoreInv emptyStore := by
  constructor
  · exact List.Pairwise.nil
  · intro r hr
    simp [emptyStore] at hr

theorem storeInv_add (s : Store) (res ip : String) (t : Nat) (h : StoreInv s) :
    StoreInv (addRecord s res ip t) := by
  obtain ⟨hp, hb⟩ := h
  constructor
  · show (s.records ++ [(⟨s.nextId, res, ip, t⟩ : Record)]).Pairwise (fun a b => a.id < b.id)
    rw [List.pairwise_append]
    refine ⟨hp, List.pairwise_singleton _ _, ?_⟩
    intro a ha b hbm
    simp only [List.mem_singleton] at hbm
    subst hbm
    exact hb a ha
  · intro r hr
    simp only [addRecord, List.mem_append, List.mem_singleton] at hr
    rcases hr with hr | hr
    · exact Nat.lt_succ_of_lt (hb r hr)
    · subst hr
      exact Nat.lt_succ_self _

theorem runRequests_inv_len (l : List (Env × AnalyzeRequest)) :
    ∀ s : Store, StoreInv s → (∀ p ∈ l, (modeVal p.2).isSome) →
      StoreInv (runRequests s l)
        ∧ (runRequests s l).records.length = s.records.length + l.length := by
  induction l with
  | nil =>
    intro s hs _
    exact ⟨hs, rfl⟩
  | cons p rest ih =>
    intro s hs hall
    obtain ⟨m, hm⟩ := Option.isSome_iff_exists.mp (hall p (List.mem_cons_self p rest))
    have hstep : (analyze p.1 p.2 s).2.1
        = addRecord s (routeBody p.1 p.2 m).1.1 (routeBody p.1 p.2 m).1.2 p.1.now := by
      rw [analyze_mode_some p.1 p.2 s m hm]
    have hrest := ih (analyze p.1 p.2 s).2.1
      (by rw [hstep]; exact storeInv_add _ _ _ _ hs)
      (fun q hq => hall q (List.mem_cons_of_mem p hq))
    refine ⟨hrest.1, ?_⟩
    show (runRequests (analyze p.1 p.2 s).2.1 rest).records.length = _
    rw [hrest.2, hstep]
    simp [addRecord]
    omega

theorem insertDesc_bottom (r : Record) (l : List Record)
    (h : ∀ x ∈ l, ¬ x.id ≤ r.id) : insertDesc r l = l ++ [r] := by
  induction l with
  | nil => rfl
  | cons x xs ih =>
    rw [insertDesc, if_neg (h x (List.mem_cons_self x xs)),
      ih (fun y hy => h y (List.mem_cons_of_mem x hy))]
    rfl

theorem sortByIdDesc_of_increasing (l : List Record)
    (h : l.Pairwise (fun a b => a.id < b.id)) : sortByIdDesc l = l.reverse := by
  induction l with
  | nil => rfl
  | cons x xs ih =>
    rw [sortByIdDesc, ih h.of_cons, insertDesc_bottom]
    · simp
    · intro y hy
      have hxy : x.id < y.id := (List.pairwise_cons.mp h).1 y (List.mem_reverse.mp hy)
      omega

theorem history_of_inv (s : Store) (h : StoreInv s) :
    history s = s.records.reverse.map recordEntry := by
  rw [history, sortByIdDesc_of_increasing s.records h.1]

theorem filter_map_entry (p : HistoryEntry → Bool) (l : List Record) :
    (l.map recordEntry).filter p = (l.filter (fun r => p (recordEntry r))).map recordEntry := by
  induction l with
  | nil => rfl
  | cons x xs ih =>
    by_cases h : p (recordEntry x) <;> simp [List.filter_cons, h, ih]

theorem filter_ne_length (l : List Record) (r : Record)
    (hl : l.Pairwise (fun a b => a.id < b.id)) (hr : r ∈ l) :
    (l.filter (fun x => x.id != r.id)).length + 1 = l.length := by
  induction l with
  | nil => cases hr
  | cons x xs ih =>
    rcases List.mem_cons.mp hr with rfl | hr'
    · have hxs : xs.filter (fun y => y.id != r.id) = xs := by
        apply List.filter_eq_self.mpr
        intro y hy
        have : r.id < y.id := (List.pairwise_cons.mp hl).1 y hy
        simp only [bne_iff_ne, ne_eq]
        omega
      rw [List.filter_cons]
      simp only [bne_self_eq_false, Bool.false_eq_true, if_false, hxs, List.length_cons]
    · have hx : (x.id != r.id) = true := by
        have : x.id < r.id := (List.pairwise_cons.mp hl).1 r hr'
        simp only [bne_iff_ne, ne_eq]
        omega
      rw [List.filter_cons, if_pos hx, List.length_cons, List.length_cons]
      rw [ih hl.of_cons hr']

theorem delete_record_existing (s : Store) (i : Nat)
    (hex : ∃ r ∈ s.records, r.id = i) :
    delete_record s i
      = (⟨"deleted", 200⟩, ⟨s.records.filter (fun x => x.id != i), s.nextId⟩) := by
  obtain ⟨r, hr, hid⟩ := hex
  unfold delete_record
  cases hfind : s.records.find? (fun x => x.id == i) with
  | none =>
    exfalso
    have hnone := List.find?_eq_none.mp hfind r hr
    simp only [beq_iff_eq] at hnone
    exact hnone hid
  | some x => rfl

theorem delete_record_missing (s : Store) (i : Nat)
    (hno : ∀ r ∈ s.records, r.id ≠ i) :
    delete_record s i = (⟨"not found", 404⟩, s) := by
  have hfind : s.records.find? (fun x => x.id == i) = none := by
    apply List.find?_eq_none.mpr
    intro x hx
    simp only [beq_iff_eq]
    exact hno x hx
  unfold delete_record
  rw [hfind]

theorem storeInv_filter (s : Store) (i : Nat) (h : StoreInv s) :
    StoreInv ⟨s.records.filter (fun x => x.id != i), s.nextId⟩ := by
  constructor
  · exact h.1.sublist (List.filter_sublist _)
  · intro r hr
    exact h.2 r (List.mem_of_mem_filter hr)

/-- Claim C9: starting from an empty store, after `N` `/analyze` calls
whose `mode` is present, `GET /history` returns exactly `N` entries,
ordered by strictly descending identifier and containing an entry for
every stored record (no pagination or filtering); deleting an existing
identifier reports `deleted`, and the subsequent history is exactly the
previous history minus that one entry (so it has `N - 1` entries);
deleting a nonexistent identifier reports `not found` (404) and leaves
the store unchanged. -/
theorem claim_c9_history_delete_roundtrip (l : List (Env × AnalyzeRequest))
    (h : ∀ p ∈ l, (modeVal p.2).isSome) :
    (history (runRequests emptyStore l)).length = l.length
      ∧ (history (runRequests emptyStore l)).Pairwise (fun a b => b.id < a.id)
      ∧ (∀ r ∈ (runRequests emptyStore l).records,
          recordEntry r ∈ history (runRequests emptyStore l))
      ∧ (∀ i : Nat, (∃ r ∈ (runRequests emptyStore l).records, r.id = i) →
          (delete_record (runRequests emptyStore l) i).1 = ⟨"deleted", 200⟩
            ∧ history (delete_record (runRequests emptyStore l) i).2
                = (history (runRequests emptyStore l)).filter (fun en => en.id != i)
            ∧ (history (delete_record (runRequests emptyStore l) i).2).length + 1 = l.length)
      ∧ (∀ i : Nat, (∀ r ∈ (runRequests emptyStore l).records, r.id ≠ i) →
          delete_record (runRequests emptyStore l) i
            = (⟨"not found", 404⟩, runRequests emptyStore l)) := by
  obtain ⟨hinv, hlen⟩ := runRequests_inv_len l emptyStore storeInv_empty h
  have hlen' : (runRequests emptyStore l).records.length = l.length := by
    simpa [emptyStore] using hlen
  have hhist : history (runRequests emptyStore l)
      = (runRequests emptyStore l).records.reverse.map recordEntry :=
    history_of_inv _ hinv
  refine ⟨?_, ?_, ?_, ?_, ?_⟩
  · rw [hhist]
    simp [hlen']
  · rw [hhist]
    apply List.Pairwise.map (R := fun a b : Record => b.id < a.id)
    · intro a b hab
      exact hab
    · exact List.pairwise_reverse.mpr hinv.1
  · intro r hr
    rw [hhist]
    exact List.mem_map_of_mem recordEntry (List.mem_reverse.mpr hr)
  · intro i hex
    have hdel := delete_record_existing (runRequests emptyStore l) i hex
    obtain ⟨r, hr, hid⟩ := hex
    have hinv' := storeInv_filter (runRequests emptyStore l) i hinv
    have hhist2 : history (delete_record (runRequests emptyStore l) i).2
        = ((runRequests emptyStore l).records.filter (fun x => x.id != i)).reverse.map
            recordEntry := by
      rw [hdel]
      exact history_of_inv _ hinv'
    refine ⟨by rw [hdel], ?_, ?_⟩
    · rw [hhist2, hhist, filter_map_entry, List.filter_reverse]
      rfl
    · rw [hhist2]
      simp only [List.length_map, List.length_reverse]
      subst hid
      rw [← hlen']
      exact filter_ne_length _ r hinv.1 hr
  · intro i hno
    exact delete_record_missing _ i hno

/-! ### Concrete requests and environments used by the witnesses -/

/-- An environment where both providers answer successfully. -/
def envAllOk : Env :=
  ⟨fun _ => Except.ok " hi there ", fun _ => Except.ok "https://res.example.com/a.png", 7⟩

/-- An environment where the chat provider raises and the uploader succeeds. -/
def envChatFail : Env :=
  ⟨fun _ => Except.error "boom", fun _ => Except.ok "https://res.example.com/a.png", 7⟩

/-- An environment where the uploader raises. -/
def envUploadFail : Env :=
  ⟨fun _ => Except.ok " hi there ", fun _ => Except.error "disk full", 7⟩

/-- A small uploaded file. -/
def sampleFile : File := ⟨"cat.jpg", [1, 2, 3]⟩

/-- `mode=text` with a prompt. -/
def reqText : AnalyzeRequest := ⟨[("mode", "text"), ("prompt", "Hello")], []⟩

/-- `mode=text` with an all-whitespace prompt. -/
def reqTextEmpty : AnalyzeRequest := ⟨[("mode", "text"), ("prompt", "   ")], []⟩

/-- A request with no `mode` field. -/
def reqNoMode : AnalyzeRequest := ⟨[("prompt", "Hello")], []⟩

/-- `mode=upload` with a file part. -/
def reqUpload : AnalyzeRequest := ⟨[("mode", "upload")], [("image", sampleFile)]⟩

/-- `mode=upload` without a file part. -/
def reqUploadNoFile : AnalyzeRequest := ⟨[("mode", "upload")], []⟩

/-- `mode=url` with a padded URL and `prompt_type=caption`. -/
def reqUrlCaption : AnalyzeRequest :=
  ⟨[("mode", "url"), ("image_url", " http://x/y.png "), ("prompt_type", "caption")], []⟩

/-- Two analyze calls used by the history round-trip witness. -/
def lC9 : List (Env × AnalyzeRequest) := [(envAllOk, reqText), (envAllOk, reqTextEmpty)]

/-! ### Witnesses -/

/-- Witness for C1 at a concrete text request. -/
theorem claim_c1_witness :
    modeVal reqText = some "text"
      ∧ ((analyze envAllOk reqText emptyStore).2.1.records
            = emptyStore.records
              ++ [⟨emptyStore.nextId, (routeBody envAllOk reqText "text").1.1,
                    (routeBody envAllOk reqText "text").1.2, envAllOk.now⟩]
          ∧ (analyze envAllOk reqText emptyStore).2.1.nextId = emptyStore.nextId + 1
          ∧ (analyze envAllOk reqText emptyStore).1
              = ⟨(routeBody envAllOk reqText "text").1.1, 200⟩
          ∧ ∀ e, handleOutcome (Except.error e) = ("Error during processing: " ++ e, "")) :=
  ⟨by decide,
    claim_c1_one_record_and_error_wrapping envAllOk reqText emptyStore "text" (by decide)⟩

/-- Witness for C2 at a concrete request without a mode. -/
theorem claim_c2_witness :
    modeVal reqNoMode = none
      ∧ analyze envAllOk reqNoMode emptyStore
          = (⟨"Error: mode field is missing", 400⟩, emptyStore, []) :=
  ⟨by decide, claim_c2_missing_mode envAllOk reqNoMode emptyStore (by decide)⟩

/-- Witness for C3 at a concrete failing upload. -/
theorem claim_c3_witness :
    modeVal reqUpload = some "upload"
      ∧ filesGet reqUpload.files "image" = some sampleFile
      ∧ sampleFile.filename ≠ ""
      ∧ envUploadFail.upload (mkUploadReq sampleFile) = Except.error "disk full"
      ∧ ((analyze envUploadFail reqUpload emptyStore).1.result
            = "Cloudinary upload failed: " ++ "disk full"
          ∧ (analyze envUploadFail reqUpload emptyStore).2.2
              = [Call.upload (mkUploadReq sampleFile)]
          ∧ (∀ c ∈ (analyze envUploadFail reqUpload emptyStore).2.2, ∀ creq, c ≠ Call.chat creq)
          ∧ (analyze envUploadFail reqUpload emptyStore).2.1.records
              = emptyStore.records
                ++ [⟨emptyStore.nextId, "Cloudinary upload failed: " ++ "disk full", "",
                      envUploadFail.now⟩]) :=
  ⟨by decide, by decide, by decide, rfl,
    claim_c3_upload_failure envUploadFail reqUpload emptyStore sampleFile "disk full"
      (by decide) (by decide) (by decide) rfl⟩

/-- Witness for C4 at a concrete successful upload. -/
theorem claim_c4_witness :
    modeVal reqUpload = some "upload"
      ∧ filesGet reqUpload.files "image" = some sampleFile
      ∧ sampleFile.filename ≠ ""
      ∧ envAllOk.upload (mkUploadReq sampleFile) = Except.ok "https://res.example.com/a.png"
      ∧ ((analyze envAllOk reqUpload emptyStore).2.1.records
            = emptyStore.records
              ++ [⟨emptyStore.nextId,
                    (image_url_model envAllOk "https://res.example.com/a.png"
                      (resolveInstruction ((formGet reqUpload.form "prompt_type").getD "describe"))).1,
                    "https://res.example.com/a.png", envAllOk.now⟩]
          ∧ (analyze envAllOk reqUpload emptyStore).2.2
              = [Call.upload (mkUploadReq sampleFile),
                 Call.chat (mkImageUrlChatReq "https://res.example.com/a.png"
                   (resolveInstruction ((formGet reqUpload.form "prompt_type").getD "describe")))]) :=
  ⟨by decide, by decide, by decide, rfl,
    claim_c4_upload_success_url envAllOk reqUpload emptyStore sampleFile
      "https://res.example.com/a.png" (by decide) (by decide) (by decide) rfl⟩

/-- Witness for C5 at a concrete url request with `prompt_type=caption`. -/
theorem claim_c5_witness :
    modeVal reqUrlCaption = some "url"
      ∧ formGet reqUrlCaption.form "image_url" = some " http://x/y.png "
      ∧ pyStrip " http://x/y.png " ≠ ""
      ∧ (captionPrompt ≠ describePrompt
          ∧ (formGet reqUrlCaption.form "prompt_type" = some "caption" →
              (analyze envAllOk reqUrlCaption emptyStore).2.2
                = [Call.chat (mkImageUrlChatReq (pyStrip " http://x/y.png ") captionPrompt)])
          ∧ (formGet reqUrlCaption.form "prompt_type" = none →
              (analyze envAllOk reqUrlCaption emptyStore).2.2
                = [Call.chat (mkImageUrlChatReq (pyStrip " http://x/y.png ") describePrompt)])
          ∧ (∀ pt, formGet reqUrlCaption.form "prompt_type" = some pt →
              pt ≠ "describe" → pt ≠ "caption" → pt ≠ "objects" → pt ≠ "explain" →
              (analyze envAllOk reqUrlCaption emptyStore).2.2
                = [Call.chat (mkImageUrlChatReq (pyStrip " http://x/y.png ") describePrompt)])) :=
  ⟨by decide, by decide, by decide,
    claim_c5_prompt_type_resolution envAllOk reqUrlCaption emptyStore " http://x/y.png "
      (by decide) (by decide) (by decide)⟩

/-- Witness for C6 at a concrete all-whitespace prompt. -/
theorem claim_c6_witness :
    modeVal reqTextEmpty = some "text"
      ∧ pyStrip ((formGet reqTextEmpty.form "prompt").getD "") = ""
      ∧ ((analyze envAllOk reqTextEmpty emptyStore).1 = ⟨"Please enter a prompt.", 200⟩
          ∧ (analyze envAllOk reqTextEmpty emptyStore).2.2 = []
          ∧ (analyze envAllOk reqTextEmpty emptyStore).2.1.records
              = emptyStore.records
                ++ [⟨emptyStore.nextId, "Please enter a prompt.", "", envAllOk.now⟩]) :=
  ⟨by decide, by decide,
    claim_c6_empty_prompt envAllOk reqTextEmpty emptyStore (by decide) (by decide)⟩

/-- Witness for C7 at a concrete upload request with no file part. -/
theorem claim_c7_witness :
    modeVal reqUploadNoFile = some "upload"
      ∧ (filesGet reqUploadNoFile.files "image" = none
          ∨ ∃ f, filesGet reqUploadNoFile.files "image" = some f ∧ f.filename = "")
      ∧ ((analyze envAllOk reqUploadNoFile emptyStore).1 = ⟨"No image file selected.", 200⟩
          ∧ (analyze envAllOk reqUploadNoFile emptyStore).2.2 = []) :=
  ⟨by decide, Or.inl (by decide),
    claim_c7_no_file envAllOk reqUploadNoFile emptyStore (by decide) (Or.inl (by decide))⟩

/-- Witness for C8 at a concrete always-failing chat provider. -/
theorem claim_c8_witness :
    envChatFail.chat (mkTextChatReq "a") = Except.error "boom"
      ∧ envChatFail.chat (mkImageUrlChatReq "u" "b") = Except.error "boom"
      ∧ envChatFail.chat (mkUploadChatReq sampleFile "c") = Except.error "boom"
      ∧ ((text_model envChatFail "a").1 = "Text model error: " ++ "boom"
          ∧ (image_url_model envChatFail "u" "b").1 = "Image URL model error: " ++ "boom"
          ∧ (image_upload_model envChatFail sampleFile "c").1
              = "Image upload model error: " ++ "boom") :=
  ⟨rfl, rfl, rfl,
    claim_c8_gateway_error_strings envChatFail "a" "u" "b" sampleFile "c" "boom" "boom" "boom"
      rfl rfl rfl⟩

/-- Witness for C9 at a concrete two-request run. -/
theorem claim_c9_witness :
    (∀ p ∈ lC9, (modeVal p.2).isSome)
      ∧ ((history (runRequests emptyStore lC9)).length = lC9.length
          ∧ (history (runRequests emptyStore lC9)).Pairwise (fun a b => b.id < a.id)
          ∧ (∀ r ∈ (runRequests emptyStore lC9).records,
              recordEntry r ∈ history (runRequests emptyStore lC9))
          ∧ (∀ i : Nat, (∃ r ∈ (runRequests emptyStore lC9).records, r.id = i) →
              (delete_record (runRequests emptyStore lC9) i).1 = ⟨"deleted", 200⟩
                ∧ history (delete_record (runRequests emptyStore lC9) i).2
                    = (history (runRequests emptyStore lC9)).filter (fun en => en.id != i)
                ∧ (history (delete_record (runRequests emptyStore lC9) i).2).length + 1
                    = lC9.length)
          ∧ (∀ i : Nat, (∀ r ∈ (runRequests emptyStore lC9).records, r.id ≠ i) →
              delete_record (runRequests emptyStore lC9) i
                = (⟨"not found", 404⟩, runRequests emptyStore lC9))) :=
  ⟨by
      intro p hp
      simp only [lC9, List.mem_cons, List.not_mem_nil, or_false] at hp
      rcases hp with rfl | rfl <;> decide,
    claim_c9_history_delete_roundtrip lC9 (by
      intro p hp
      simp only [lC9, List.mem_cons, List.not_mem_nil, or_false] at hp
      rcases hp with rfl | rfl <;> decide)⟩

/-- Witness for C10 at a concrete upload whose inference call fails. -/
theorem claim_c10_witness :
    modeVal reqUpload = some "upload"
      ∧ filesGet reqUpload.files "image" = some sampleFile
      ∧ sampleFile.filename ≠ ""
      ∧ envChatFail.upload (mkUploadReq sampleFile) = Except.ok "https://res.example.com/a.png"
      ∧ envChatFail.chat (mkImageUrlChatReq "https://res.example.com/a.png"
            (resolveInstruction ((formGet reqUpload.form "prompt_type").getD "describe")))
          = Except.error "boom"
      ∧ ((analyze envChatFail reqUpload emptyStore).2.1.records
            = emptyStore.records
              ++ [⟨emptyStore.nextId, "Image URL model error: " ++ "boom",
                    "https://res.example.com/a.png", envChatFail.now⟩]
          ∧ (analyze envChatFail reqUpload emptyStore).1.result
              = "Image URL model error: " ++ "boom") :=
  ⟨by decide, by decide, by decide, rfl, rfl,
    claim_c10_url_kept_on_inference_failure envChatFail reqUpload emptyStore sampleFile
      "https://res.example.com/a.png" "boom" (by decide) (by decide) (by decide) rfl rfl⟩
